import Mathlib

/-!
Verification of `examples/libh2o/httpclient.c`: a shallow embedding of the
client's callbacks (`on_connect`, `on_head`, `on_body`), its paced request-body
producer (`fill_body`, `timeout_cb`, `proceed_request`), its error handling
(`on_error`, `on_exit_deferred`) and its stderr rendering
(`print_status_line`, header printing), together with theorems about them.

Machine integers of the C source (`int cur_body_size`, `int cnt_left`, ...) are
modelled as `Int`; sizes validated positive by the CLI (`chunk_size`) as `Nat`.
Text written to stdout/stderr is modelled as `String`, one `Char` per byte.
-/

namespace Httpclient

/-- A C string pointer: an address together with the bytes it points to.
The source compares error pointers by address (`errstr ==
h2o_httpclient_error_is_eos`), never by contents. -/
structure ErrPtr where
  addr : Nat
  contents : String
deriving DecidableEq, Repr

/-- Modelled from the spec: the distinguished end-of-stream sentinel
(`h2o_httpclient_error_is_eos`), declared by the client library outside the
sources under verification; only its identity (address) matters, its contents
are arbitrary. -/
def h2o_httpclient_error_is_eos : ErrPtr :=
  { addr := 1, contents := "end of stream" }

/-- The C test `errstr == h2o_httpclient_error_is_eos`: pointer identity
(address equality); a NULL pointer is never the sentinel. -/
def ptr_eq_eos : Option ErrPtr → Bool
  | some e => e.addr == h2o_httpclient_error_is_eos.addr
  | none => false

/-- The C test `errstr != NULL && errstr != h2o_httpclient_error_is_eos`
guarding the error paths of `on_body` and `on_head`. -/
def is_real_error (errstr : Option ErrPtr) : Bool :=
  errstr.isSome && !ptr_eq_eos errstr

/-- Contents of a possibly-NULL error string (used only when non-NULL). -/
def err_contents : Option ErrPtr → String
  | some e => e.contents
  | none => ""

/-- The process-wide configuration globals of httpclient.c, set once by
`main` from the command line: `url`, `method`, `body_size`, `chunk_size`,
`delay_interval_ms`; `url_ok` abstracts whether `h2o_url_parse` accepts
`url`. -/
structure Config where
  url_ok : Bool
  url : String
  method : String
  body_size : Int
  chunk_size : Nat
  delay_interval_ms : Nat
deriving DecidableEq, Repr

/-- The two timer callbacks the program registers: `on_exit_deferred`
(deferred `exit(1)`) and `timeout_cb` (send the next body chunk). -/
inductive TimerCb where
  | exit_deferred
  | chunk_timeout
deriving DecidableEq, Repr

/-- A pending `h2o_timer_t`: its delay in milliseconds and its callback. -/
structure Timer where
  delay : Nat
  cb : TimerCb
deriving DecidableEq, Repr

/-- A record of one `client->write_req(client, reqbuf, is_end_stream)` call:
the byte count of the chunk and the end-of-stream flag. -/
structure WriteEv where
  n : Nat
  eos : Bool
deriving DecidableEq, Repr

/-- The mutable state of the program: the counters `cnt_left` and
`cur_body_size`, the streams written so far, the pending timers of the event
loop, the write events issued to the transport, whether `exit` has been
called (and with what code), and `inflight` — ghost bookkeeping recording
whether a request has been started and not yet completed by end-of-stream. -/
structure World where
  cnt_left : Int
  cur_body_size : Int
  stdout_data : String
  stderr_data : String
  timers : List Timer
  writes : List WriteEv
  exited : Option Nat
  inflight : Bool
deriving DecidableEq, Repr

/-- `on_exit_deferred`: unlink the timer and `exit(1)`. -/
def on_exit_deferred (w : World) : World :=
  { w with exited := some 1 }

/-- `on_error`: print the formatted message and a newline to stderr, then
defer process exit by linking the static `exit_deferred` timer with a zero
delay (so that pending GOAWAY frames can be sent first). -/
def on_error (w : World) (msg : String) : World :=
  { w with
    stderr_data := w.stderr_data ++ msg ++ "\n",
    timers := w.timers ++ [{ delay := 0, cb := TimerCb.exit_deferred }] }

/-- `start_request`: clear the memory pool, parse the URL (reporting an
error on failure), reset `cur_body_size := body_size` and initiate the
connection (which will later invoke `on_connect`). Sets the ghost
`inflight` flag. -/
def start_request (cfg : Config) (w : World) : World :=
  if cfg.url_ok = false then
    on_error w ("unrecognized type of URL: " ++ cfg.url)
  else
    { w with cur_body_size := cfg.body_size, inflight := true }

/-- The C macro `MIN(a, b) = ((a) > (b)) ? (b) : (a)`. -/
def c_MIN (a b : Nat) : Nat :=
  if a > b then b else a

/-- Result of `fill_body`: the length stored into `reqbuf->len`, the C
return value (0 = chunk produced, 1 = body already complete) and the updated
`cur_body_size`. -/
structure FillOut where
  len : Nat
  ret : Nat
  cur : Int
deriving DecidableEq, Repr

/-- `fill_body`: if `cur_body_size > 0`, produce a chunk of
`MIN(iov_filler.len, cur_body_size)` bytes (where `iov_filler.len` is
`chunk_size`) and subtract it from `cur_body_size`, returning 0; otherwise
produce an empty iovec and return 1. -/
def fill_body (chunk_size : Nat) (cur_body_size : Int) : FillOut :=
  if cur_body_size > 0 then
    { len := c_MIN chunk_size cur_body_size.toNat,
      ret := 0,
      cur := cur_body_size - (c_MIN chunk_size cur_body_size.toNat : Nat) }
  else
    { len := 0, ret := 1, cur := cur_body_size }

/-- `timeout_cb`: fill the request buffer from the filler, unlink the fired
timer, and call `write_req` with end-of-stream flag `cur_body_size <= 0`
(evaluated after `fill_body` has decremented it). -/
def timeout_cb (cfg : Config) (w : World) : World :=
  { w with
    cur_body_size := (fill_body cfg.chunk_size w.cur_body_size).cur,
    writes := w.writes ++
      [{ n := (fill_body cfg.chunk_size w.cur_body_size).len,
         eos := decide ((fill_body cfg.chunk_size w.cur_body_size).cur ≤ 0) }] }

/-- `proceed_request`: invoked by the transport once it has accepted a
chunk; if `cur_body_size > 0`, allocate a fresh timeout context and link a
one-shot timer with delay `delay_interval_ms` whose callback is
`timeout_cb`; otherwise do nothing. -/
def proceed_request (cfg : Config) (w : World) (written : Nat)
    (is_end_stream : Bool) : World :=
  if w.cur_body_size > 0 then
    { w with timers := w.timers ++
        [{ delay := cfg.delay_interval_ms, cb := TimerCb.chunk_timeout }] }
  else
    w

/-- Dispatch a fired timer to its callback. -/
def run_timer_cb (cfg : Config) : TimerCb → World → World
  | TimerCb.exit_deferred, w => on_exit_deferred w
  | TimerCb.chunk_timeout, w => timeout_cb cfg w

/-- One event-loop iteration: fire the first pending timer (removing it from
the pending list), or do nothing when none is pending. -/
def loop_iter (cfg : Config) (w : World) : World :=
  match w.timers with
  | [] => w
  | t :: ts => run_timer_cb cfg t.cb { w with timers := ts }

/-- The sequence of `write_req` events produced by the chunk-timer loop when
a timer is pending and `cur_body_size = cur`: each fire runs `fill_body`
and writes `(len, cur' <= 0)`; `proceed_request` re-arms the timer exactly
when the decremented `cur' > 0`. (`C` is `chunk_size`; the `C = 0` guard is
for termination only — the CLI rejects non-positive chunk sizes.) -/
def producer_trace (C : Nat) (cur : Int) : List WriteEv :=
  if C = 0 then []
  else if h : (fill_body C cur).cur > 0 then
    { n := (fill_body C cur).len, eos := decide ((fill_body C cur).cur ≤ 0) } ::
      producer_trace C (fill_body C cur).cur
  else
    [{ n := (fill_body C cur).len, eos := decide ((fill_body C cur).cur ≤ 0) }]
termination_by cur.toNat
decreasing_by
  by_cases hcur : cur > 0 <;> by_cases hmin : C > cur.toNat <;>
    simp [fill_body, c_MIN, hcur, hmin] at h ⊢ <;> omega

/-- All `write_req` events of one request: `on_connect` arms the first chunk
timer if and only if `cur_body_size > 0`, so a body of size `B ≤ 0` produces
no write at all. -/
def producer_writes (C : Nat) (B : Int) : List WriteEv :=
  if B > 0 then producer_trace C B else []

/-- The out-parameters `on_connect` fills in on success: `*_method`,
`*headers`/`*num_headers` (as an association list), the initial `*body`
length, and whether `*proceed_req_cb` was set to `proceed_request`. -/
structure ConnectOut where
  method : String
  headers : List (String × String)
  body_len : Nat
  proceed_req_installed : Bool
deriving DecidableEq, Repr

/-- `on_connect`: on a connection error report it and return NULL; on
success fill the out-parameters (method, URL, no headers, empty body, NULL
proceed callback), and — only when `cur_body_size > 0` — add a single
`content-length` header whose value is `sprintf("%d", cur_body_size)`,
install `proceed_request`, and link a first chunk timer with delay
`delay_interval_ms`. Returns `on_head` (modelled as `some out`). -/
def on_connect (cfg : Config) (w : World) (errstr : Option ErrPtr) :
    World × Option ConnectOut :=
  match errstr with
  | some e => (on_error w e.contents, none)
  | none =>
    if w.cur_body_size > 0 then
      ({ w with timers := w.timers ++
          [{ delay := cfg.delay_interval_ms, cb := TimerCb.chunk_timeout }] },
       some { method := cfg.method,
              headers := [("content-length", toString w.cur_body_size)],
              body_len := 0,
              proceed_req_installed := true })
    else
      (w, some { method := cfg.method, headers := [], body_len := 0,
                 proceed_req_installed := false })

/-- The C idiom `%.*s` with a byte-count precision: print the first `n`
bytes of `s` (all of `s` when `n` exceeds its length). -/
def c_take (s : String) (n : Nat) : String :=
  String.mk (s.data.take n)

/-- `print_status_line`: `fprintf(stderr, "HTTP/%d", version >> 8)`, then
`.%d` with the minor version when `(version & 0xff) != 0`, then
`" %d"` with the status; finally, when `msg.len == 0` the source prints
`" %.*s\n"` (a space, `msg.len` bytes of the message, a newline) and
otherwise just `"\n"` — note the inverted-looking condition is transcribed
as-is from the source. -/
def print_status_line (version : Nat) (status : Int) (msg : String) : String :=
  let s := "HTTP/" ++ toString (version >>> 8)
  let s := if version &&& 0xff ≠ 0 then s ++ ("." ++ toString (version &&& 0xff)) else s
  let s := s ++ (" " ++ toString status)
  if msg.length = 0 then
    s ++ (" " ++ c_take msg msg.length ++ "\n")
  else
    s ++ "\n"

/-- Modelled from the spec: the claimed status-line format
`HTTP/<major>[.<minor>] <code>\n` — major version, a dot and the minor
version only when nonzero, a single space, the status code, a newline,
nothing else. Used to compare the source's `print_status_line` against the
claim. -/
def claimed_status_line (version : Nat) (status : Int) : String :=
  "HTTP/" ++ toString (version >>> 8) ++
    (if version &&& 0xff ≠ 0 then "." ++ toString (version &&& 0xff) else "") ++
    " " ++ toString status ++ "\n"

/-- A response header as delivered to `on_head`: the canonical name token
(whose `len` is `name.length`), the optional original-case name pointer
(`orig_name`, NULL when absent), and the value. -/
structure RespHeader where
  name : String
  orig_name : Option String
  value : String
deriving DecidableEq, Repr

/-- The header-rendering line of `on_head`'s loop:
`const char *name = orig_name; if (name == NULL) name = name->base;`
then `fprintf(stderr, "%.*s: %.*s\n", (int)name->len, name,
(int)value.len, value.base)` — the printed byte count is always the
canonical name's length, whichever pointer was chosen. -/
def print_header_line (h : RespHeader) : String :=
  c_take (match h.orig_name with | some o => o | none => h.name) h.name.length
    ++ ": " ++ c_take h.value h.value.length ++ "\n"

/-- The header loop of `on_head`, first to last. -/
def print_headers : List RespHeader → String
  | [] => ""
  | h :: rest => print_header_line h ++ print_headers rest

/-- `on_head`: a real error (non-NULL, not the EOS sentinel) is reported
and NULL is returned; otherwise the status line, the headers and a blank
line are printed to stderr; then, if `errstr` is the EOS sentinel (headers
received but no body will follow), `"no body"` is reported as an error and
NULL is returned; otherwise `on_body` is installed (modelled as `true`). -/
def on_head (w : World) (errstr : Option ErrPtr) (version : Nat) (status : Int)
    (msg : String) (headers : List RespHeader) : World × Bool :=
  if is_real_error errstr then
    (on_error w (err_contents errstr), false)
  else
    let w1 := { w with stderr_data :=
      (w.stderr_data ++ print_status_line version status msg ++
        print_headers headers ++ "\n") }
    if ptr_eq_eos errstr then
      (on_error w1 "no body", false)
    else
      (w1, true)

/-- `on_body`: a real error (non-NULL, not the EOS sentinel) is reported
and -1 is returned (aborting reception); otherwise the buffered bytes are
written to stdout, flushed and consumed, and — only when `errstr` is the
EOS sentinel — `cnt_left` is decremented and, when the decremented count is
nonzero, the pool is cleared and the next request is started; 0 is
returned. -/
def on_body (cfg : Config) (w : World) (errstr : Option ErrPtr)
    (buf : String) : World × Int :=
  if is_real_error errstr then
    (on_error w (err_contents errstr), -1)
  else
    let w1 := { w with stdout_data := w.stdout_data ++ buf }
    if ptr_eq_eos errstr then
      let w2 := { w1 with cnt_left := w1.cnt_left - 1, inflight := false }
      if w2.cnt_left ≠ 0 then
        (start_request cfg w2, 0)
      else
        (w2, 0)
    else
      (w1, 0)

/-- One server response as seen by the client's callbacks. -/
structure Response where
  version : Nat
  status : Int
  msg : String
  headers : List RespHeader
  body : String
deriving DecidableEq, Repr

/-- The happy-path lifecycle of one already-started request, as the
transport drives it: `on_connect` with no error, `on_head` with no error,
one `on_body` delivery of the body bytes, then `on_body` with the EOS
sentinel (whose buffer is already consumed, hence empty). -/
def deliver_response (cfg : Config) (w : World) (r : Response) : World :=
  let w1 := (on_connect cfg w none).1
  let w2 := (on_head w1 none r.version r.status r.msg r.headers).1
  let w3 := (on_body cfg w2 none r.body).1
  (on_body cfg w3 (some h2o_httpclient_error_is_eos) "").1

/-- Drive the client through a list of successive responses; each EOS
branch of `on_body` itself starts the next request while `cnt_left`
remains nonzero. -/
def run_client (cfg : Config) (w : World) : List Response → World
  | [] => w
  | r :: rs => run_client cfg (deliver_response cfg w r) rs

/-- Concatenation of a list of strings, in order. -/
def strConcat : List String → String
  | [] => ""
  | s :: rest => s ++ strConcat rest

/-- A concrete configuration used by witnesses: the defaults of `main`
with a body of 1000 bytes in 250-byte chunks every 10 ms (the spec's POST
scenario). -/
def cfgW : Config :=
  { url_ok := true, url := "https://example.com/upload", method := "POST",
    body_size := 1000, chunk_size := 250, delay_interval_ms := 10 }

/-- A concrete initial world used by witnesses: one request left, nothing
written, no timers pending, not exited. -/
def w0 : World :=
  { cnt_left := 1, cur_body_size := 0, stdout_data := "", stderr_data := "",
    timers := [], writes := [], exited := none, inflight := false }

/-- A concrete world used by witnesses in which the 1000-byte body of
`cfgW` has just been staged by `start_request`. -/
def wB : World :=
  { w0 with cur_body_size := 1000, inflight := true }

/-- A concrete response header used by witnesses: canonical name `dnt`
(3 bytes) with a longer original-case pointer. -/
def hdrW : RespHeader :=
  { name := "dnt", orig_name := some "DNT-ORIGINAL", value := "1" }

/-- A concrete response used by witnesses. -/
def respW : Response :=
  { version := 0x101, status := 200, msg := "OK", headers := [], body := "aaa" }

/-- A second concrete response used by witnesses. -/
def respW2 : Response :=
  { version := 0x101, status := 200, msg := "OK", headers := [], body := "bbb" }

/-- A concrete world used by witnesses with two requests left to send. -/
def wN : World :=
  { w0 with cnt_left := 2 }

/-! Helper lemmas. -/

/-- Printing zero bytes of a string yields the empty string. -/
theorem c_take_zero (s : String) : c_take s 0 = "" := by
  simp [c_take]

/-- Printing `s.length` bytes of `s` yields `s` itself. -/
theorem c_take_length (s : String) : c_take s s.length = s := by
  obtain ⟨l⟩ := s
  simp [c_take, String.length]

/-- Unfolding of `fill_body` when body bytes remain and the chunk does not
exhaust them. -/
theorem fill_body_of_lt (C : Nat) (cur : Int) (hcur : 0 < cur)
    (hgt : (C : Int) < cur) :
    fill_body C cur = { len := C, ret := 0, cur := cur - C } := by
  have h1 : ¬ C > cur.toNat := by omega
  simp only [fill_body, c_MIN, if_pos hcur, if_neg h1]

/-- Unfolding of `fill_body` when the chunk exhausts the remaining bytes. -/
theorem fill_body_of_ge (C : Nat) (cur : Int) (hcur : 0 < cur)
    (hle : cur ≤ (C : Int)) :
    fill_body C cur = { len := cur.toNat, ret := 0, cur := 0 } := by
  by_cases h : C > cur.toNat
  · simp only [fill_body, c_MIN, if_pos hcur, if_pos h, FillOut.mk.injEq]
    exact ⟨trivial, trivial, by omega⟩
  · simp only [fill_body, c_MIN, if_pos hcur, if_neg h, FillOut.mk.injEq]
    exact ⟨by omega, trivial, by omega⟩

/-- The write events of the chunk-timer loop started with `cur > 0` bytes
remaining: there are `⌈cur / C⌉` of them, their byte counts sum to `cur`,
and the end-of-stream flag is false on all but the last and true on the
last. -/
theorem producer_trace_spec (C : Nat) (hC : 1 ≤ C) (cur : Int)
    (hcur : 0 < cur) :
    (producer_trace C cur).length = (cur.toNat + C - 1) / C ∧
    ((producer_trace C cur).map WriteEv.n).sum = cur.toNat ∧
    (producer_trace C cur).map WriteEv.eos =
      List.replicate ((producer_trace C cur).length - 1) false ++ [true] := by
  have hC0 : ¬ C = 0 := by omega
  rw [producer_trace, if_neg hC0]
  by_cases hle : cur ≤ (C : Int)
  · -- final chunk: the write exhausts the body
    rw [fill_body_of_ge C cur hcur hle]
    have hnot : ¬ ((0 : Int) > 0) := by omega
    simp only [dif_neg hnot]
    refine ⟨?_, ?_, ?_⟩
    · simp only [List.length_singleton]
      have := Nat.div_eq_of_lt_le
        (show 1 * C ≤ cur.toNat + C - 1 by omega)
        (show cur.toNat + C - 1 < (1 + 1) * C by omega)
      omega
    · simp
    · simp
  · -- a full chunk is written and the timer is re-armed
    have hgt : (C : Int) < cur := by omega
    rw [fill_body_of_lt C cur hcur hgt]
    have hpos : (0 : Int) < cur - C := by omega
    simp only [dif_pos hpos]
    obtain ⟨ih1, ih2, ih3⟩ := producer_trace_spec C hC (cur - C) hpos
    have htn : (cur - (C : Int)).toNat = cur.toNat - C := by omega
    have hlen1 : 1 ≤ (producer_trace C (cur - C)).length := by
      rw [ih1, htn]
      rw [Nat.one_le_div_iff (by omega)]
      omega
    refine ⟨?_, ?_, ?_⟩
    · simp only [List.length_cons, ih1, htn]
      have harith : cur.toNat + C - 1 = ((cur.toNat - C) + C - 1) + C := by
        omega
      rw [harith, Nat.add_div_right _ (by omega)]
    · simp only [List.map_cons, List.sum_cons, ih2, htn]
      omega
    · simp only [List.map_cons, List.length_cons, ih3]
      have hfalse : decide ((cur - (C : Int)) ≤ 0) = false :=
        decide_eq_false (by omega)
      rw [hfalse]
      have hsplit : (producer_trace C (cur - C)).length =
          ((producer_trace C (cur - C)).length - 1) + 1 := by omega
      conv_rhs => rw [Nat.add_sub_cancel, hsplit, List.replicate_succ]
      simp
termination_by cur.toNat
decreasing_by
  omega

/-! Claim theorems. -/

/-- C1: for every body size `B ≥ 0` and chunk size `C ≥ 1`, the paced body
producer emits exactly `⌈B / C⌉` write events, the byte counts of all
writes sum to `B`, and the end-of-stream flag is set on the final write
only. -/
theorem c1_paced_producer (B C : Nat) (hC : 1 ≤ C) :
    (producer_writes C (B : Int)).length = (B + C - 1) / C ∧
    ((producer_writes C (B : Int)).map WriteEv.n).sum = B ∧
    (producer_writes C (B : Int)).map WriteEv.eos =
      List.replicate ((producer_writes C (B : Int)).length - 1) false ++
        (if B = 0 then [] else [true]) := by
  by_cases hB : B = 0
  · subst hB
    have hdiv : (C - 1) / C = 0 := Nat.div_eq_of_lt (by omega)
    simp [producer_writes, hdiv]
  · have hBpos : (0 : Int) < (B : Int) := by omega
    have hrw : producer_writes C (B : Int) = producer_trace C (B : Int) := by
      rw [producer_writes, if_pos hBpos]
    have h := producer_trace_spec C hC (B : Int) hBpos
    have ht : ((B : Int)).toNat = B := by omega
    rw [ht] at h
    rw [hrw, if_neg hB]
    exact h

/-- Witness for C1 at `B = 101`, `C = 100`: two writes of 100 and 1 bytes,
end-of-stream on the second only. -/
theorem c1_paced_producer_witness :
    1 ≤ 100 ∧
    ((producer_writes 100 ((101 : Nat) : Int)).length = (101 + 100 - 1) / 100 ∧
      ((producer_writes 100 ((101 : Nat) : Int)).map WriteEv.n).sum = 101 ∧
      (producer_writes 100 ((101 : Nat) : Int)).map WriteEv.eos =
        List.replicate ((producer_writes 100 ((101 : Nat) : Int)).length - 1)
            false ++
          (if (101 : Nat) = 0 then [] else [true])) :=
  ⟨by decide, c1_paced_producer 101 100 (by decide)⟩

/-- The return value of `on_body` depends only on the error classification:
-1 on a real error, 0 otherwise. -/
theorem on_body_snd (cfg : Config) (w : World) (errstr : Option ErrPtr)
    (buf : String) :
    (on_body cfg w errstr buf).2 = if is_real_error errstr then -1 else 0 := by
  simp only [on_body]
  split_ifs <;> rfl

/-- C2 counterexample: for an empty reason phrase the source's
`print_status_line` emits `HTTP/1.1 200 \n` — a trailing space before the
newline — not the claimed `HTTP/1.1 200\n` (the `if (msg.len == 0)` branch
prints the `" %.*s\n"` format precisely when the message is empty). -/
theorem c2_counterexample :
    print_status_line 0x101 200 "" ≠ claimed_status_line 0x101 200 := by
  decide

/-- C2 (amended): no reason-phrase characters are ever printed; when the
reason phrase is nonempty the status line is exactly
`HTTP/<major>[.<minor>] <code>\n`, and when it is empty a single extra
space precedes the newline. -/
theorem c2_status_line_amended (version : Nat) (status : Int) (msg : String) :
    (msg.length ≠ 0 →
      print_status_line version status msg = claimed_status_line version status) ∧
    (msg.length = 0 →
      print_status_line version status msg =
        "HTTP/" ++ toString (version >>> 8) ++
          (if version &&& 0xff ≠ 0 then "." ++ toString (version &&& 0xff)
           else "") ++
          " " ++ toString status ++ " \n") := by
  have hsp : (" " : String) ++ "\n" = " \n" := by decide
  constructor
  · intro h
    simp only [print_status_line, claimed_status_line, if_neg h]
    by_cases hv : version &&& 0xff ≠ 0
    · rw [if_pos hv, if_pos hv]
      simp [String.append_assoc]
    · rw [if_neg hv, if_neg hv]
      simp [String.append_assoc]
  · intro h
    simp only [print_status_line, if_pos h]
    rw [h, c_take_zero]
    by_cases hv : version &&& 0xff ≠ 0
    · rw [if_pos hv, if_pos hv]
      simp [String.append_assoc, hsp]
    · rw [if_neg hv, if_neg hv]
      simp [String.append_assoc, hsp]

/-- Witness for C2 (amended) at version 0x101, status 200: nonempty reason
phrase `OK` yields exactly `HTTP/1.1 200` and a newline. -/
theorem c2_status_line_amended_witness :
    ("OK" : String).length ≠ 0 ∧
    print_status_line 0x101 200 "OK" = claimed_status_line 0x101 200 :=
  ⟨by decide, (c2_status_line_amended 0x101 200 "OK").1 (by decide)⟩

/-- C3: when `on_head` receives the end-of-stream sentinel (headers
received but no body will follow), it reports the error `no body` on
stderr, schedules the deferred-exit timer, and returns NULL instead of
installing `on_body`. -/
theorem c3_head_eos_is_failure (w : World) (version : Nat) (status : Int)
    (msg : String) (headers : List RespHeader) :
    (on_head w (some h2o_httpclient_error_is_eos) version status msg
        headers).2 = false ∧
    (on_head w (some h2o_httpclient_error_is_eos) version status msg
        headers).1.stderr_data =
      w.stderr_data ++ print_status_line version status msg ++
        print_headers headers ++ "\n" ++ "no body" ++ "\n" ∧
    (on_head w (some h2o_httpclient_error_is_eos) version status msg
        headers).1.timers =
      w.timers ++ [{ delay := 0, cb := TimerCb.exit_deferred }] := by
  refine ⟨?_, ?_, ?_⟩ <;>
    simp [on_head, is_real_error, ptr_eq_eos, on_error]

/-- C4: `on_body` discriminates errors from end-of-stream by pointer
identity with the sentinel only: it returns -1 exactly when its error
argument is non-NULL and has a different address than the sentinel (even
when its contents equal the sentinel's contents), and returns 0 for NULL or
for the sentinel itself. -/
theorem c4_body_identity_not_contents (cfg : Config) (w : World)
    (errstr : Option ErrPtr) (buf : String) :
    ((on_body cfg w errstr buf).2 = -1 ↔
      ∃ e, errstr = some e ∧ e.addr ≠ h2o_httpclient_error_is_eos.addr) ∧
    ((on_body cfg w errstr buf).2 = 0 ↔
      (errstr = none ∨
        ∃ e, errstr = some e ∧ e.addr = h2o_httpclient_error_is_eos.addr)) ∧
    (∀ e : ErrPtr, e.contents = h2o_httpclient_error_is_eos.contents →
      e.addr ≠ h2o_httpclient_error_is_eos.addr →
      (on_body cfg w (some e) buf).2 = -1) := by
  refine ⟨?_, ?_, ?_⟩
  · rw [on_body_snd]
    cases errstr with
    | none => simp [is_real_error]
    | some e =>
      by_cases ha : e.addr = h2o_httpclient_error_is_eos.addr <;>
        simp [is_real_error, ptr_eq_eos, ha]
  · rw [on_body_snd]
    cases errstr with
    | none => simp [is_real_error]
    | some e =>
      by_cases ha : e.addr = h2o_httpclient_error_is_eos.addr <;>
        simp [is_real_error, ptr_eq_eos, ha]
  · intro e hcont ha
    rw [on_body_snd]
    simp [is_real_error, ptr_eq_eos, ha]

/-- Witness for C4: an error string whose contents equal the sentinel's
contents but whose address differs is still treated as a real error
(return -1). -/
theorem c4_body_identity_not_contents_witness :
    (on_body cfgW w0
      (some { addr := 7, contents := "end of stream" }) "x").2 = -1 :=
  (c4_body_identity_not_contents cfgW w0
      (some { addr := 7, contents := "end of stream" }) "x").2.2
    { addr := 7, contents := "end of stream" } rfl (by decide)

/-- C5: `on_error` never terminates the process synchronously: it leaves
`exited` untouched and links a zero-delay timer whose callback is
`on_exit_deferred`; the process exits with code 1 exactly when that timer
fires on the next loop iteration, and the only other timer callback
(`timeout_cb`) never exits. -/
theorem c5_deferred_exit (cfg : Config) (w : World) (msg : String)
    (ht : w.timers = []) (hx : w.exited = none) :
    (on_error w msg).exited = none ∧
    (on_error w msg).timers = [{ delay := 0, cb := TimerCb.exit_deferred }] ∧
    (loop_iter cfg (on_error w msg)).exited = some 1 ∧
    (∀ v : World, (run_timer_cb cfg TimerCb.chunk_timeout v).exited =
      v.exited) := by
  refine ⟨?_, ?_, ?_, ?_⟩
  · simp [on_error, hx]
  · simp [on_error, ht]
  · simp [on_error, loop_iter, ht, run_timer_cb, on_exit_deferred]
  · intro v
    simp [run_timer_cb, timeout_cb]

/-- Witness for C5 at a concrete world with no pending timers. -/
theorem c5_deferred_exit_witness :
    w0.timers = [] ∧ w0.exited = none ∧
    ((on_error w0 "boom").exited = none ∧
      (on_error w0 "boom").timers =
        [{ delay := 0, cb := TimerCb.exit_deferred }] ∧
      (loop_iter cfgW (on_error w0 "boom")).exited = some 1 ∧
      (∀ v : World, (run_timer_cb cfgW TimerCb.chunk_timeout v).exited =
        v.exited)) :=
  ⟨rfl, rfl, c5_deferred_exit cfgW w0 "boom" rfl rfl⟩

/-- C6: on a successful connect, `on_connect` installs the body-sending
setup exactly when the configured body size is positive: then it adds a
single `content-length` header whose value is the decimal body size,
installs the proceed callback and links a first chunk timer; for a
non-positive (i.e. zero) body size it adds no header, leaves the proceed
callback NULL and schedules nothing. -/
theorem c6_connect_body_setup (cfg : Config) (w : World)
    (hcur : w.cur_body_size = cfg.body_size) :
    (0 < cfg.body_size →
      (on_connect cfg w none).2 =
        some { method := cfg.method,
               headers := [("content-length", toString cfg.body_size)],
               body_len := 0, proceed_req_installed := true } ∧
      (on_connect cfg w none).1.timers =
        w.timers ++ [{ delay := cfg.delay_interval_ms,
                       cb := TimerCb.chunk_timeout }]) ∧
    (cfg.body_size ≤ 0 →
      (on_connect cfg w none).2 =
        some { method := cfg.method, headers := [], body_len := 0,
               proceed_req_installed := false } ∧
      (on_connect cfg w none).1 = w) := by
  constructor
  · intro h
    simp [on_connect, hcur, h]
  · intro h
    have hneg : ¬ 0 < cfg.body_size := by omega
    simp [on_connect, hcur, hneg]

/-- Witness for C6: with a 1000-byte body, the connect callback emits
`content-length: 1000`, installs the proceed callback, and arms a chunk
timer. -/
theorem c6_connect_body_setup_witness :
    wB.cur_body_size = cfgW.body_size ∧ 0 < cfgW.body_size ∧
    (on_connect cfgW wB none).2 =
      some { method := "POST", headers := [("content-length", "1000")],
             body_len := 0, proceed_req_installed := true } := by
  refine ⟨rfl, by decide, ?_⟩
  have h := (c6_connect_body_setup cfgW wB rfl).1 (by decide)
  rw [h.1]
  decide

/-- C7: after the transport accepts a chunk, `proceed_request` links
exactly one new one-shot chunk timer with delay `delay_interval_ms` if and
only if the remaining byte count is positive; when it is zero or negative
it changes nothing. -/
theorem c7_proceed_rearms_iff_remaining (cfg : Config) (w : World)
    (written : Nat) (is_end_stream : Bool) :
    (0 < w.cur_body_size →
      (proceed_request cfg w written is_end_stream).timers =
        w.timers ++ [{ delay := cfg.delay_interval_ms,
                       cb := TimerCb.chunk_timeout }]) ∧
    (w.cur_body_size ≤ 0 →
      proceed_request cfg w written is_end_stream = w) := by
  constructor
  · intro h
    simp [proceed_request, h]
  · intro h
    have hneg : ¬ w.cur_body_size > 0 := by omega
    simp [proceed_request, hneg]

/-- Witness for C7: with 1000 bytes remaining a chunk timer with the
configured 10 ms delay is linked. -/
theorem c7_proceed_rearms_witness :
    0 < wB.cur_body_size ∧
    (proceed_request cfgW wB 250 false).timers =
      wB.timers ++ [{ delay := 10, cb := TimerCb.chunk_timeout }] := by
  refine ⟨by decide, ?_⟩
  have h := (c7_proceed_rearms_iff_remaining cfgW wB 250 false).1 (by decide)
  rw [h]
  rfl

/-- C9: `on_connect` does not special-case the EOS sentinel: every
non-NULL error argument — the sentinel included — takes the error path
(print the message, schedule the deferred exit) and returns NULL without
filling the request out-parameters. -/
theorem c9_connect_error_uniform (cfg : Config) (w : World) (e : ErrPtr) :
    (on_connect cfg w (some e)).2 = none ∧
    (on_connect cfg w (some e)).1.stderr_data =
      w.stderr_data ++ e.contents ++ "\n" ∧
    (on_connect cfg w (some e)).1.timers =
      w.timers ++ [{ delay := 0, cb := TimerCb.exit_deferred }] ∧
    (on_connect cfg w (some h2o_httpclient_error_is_eos)).2 = none := by
  refine ⟨?_, ?_, ?_, ?_⟩ <;> simp [on_connect, on_error]

/-- C10: `on_head` renders a header name from the original-case pointer
when present, but always prints exactly the canonical name's length in
bytes; an original-case name longer than the canonical name is therefore
truncated rather than printed in full (and one shorter would be over-read
at the C level). With no original-case pointer the canonical name is
printed in full. -/
theorem c10_header_name_canonical_length (h : RespHeader) (o : String)
    (ho : h.orig_name = some o) :
    print_header_line h =
      c_take o h.name.length ++ ": " ++
        c_take h.value h.value.length ++ "\n" ∧
    (h.name.length < o.length → c_take o h.name.length ≠ o) ∧
    (∀ h2 : RespHeader, h2.orig_name = none →
      print_header_line h2 =
        h2.name ++ ": " ++ c_take h2.value h2.value.length ++ "\n") := by
  refine ⟨?_, ?_, ?_⟩
  · simp [print_header_line, ho]
  · intro hlt heq
    obtain ⟨l⟩ := o
    have hl := congrArg String.length heq
    simp only [c_take, String.length_mk, List.length_take] at hl hlt
    omega
  · intro h2 hn
    simp [print_header_line, hn, c_take_length]

/-- Witness for C10: canonical name `dnt` (3 bytes) with original-case
pointer `DNT-ORIGINAL` (12 bytes) renders as `DNT: 1` — truncated to the
canonical length. -/
theorem c10_header_name_canonical_length_witness :
    hdrW.orig_name = some "DNT-ORIGINAL" ∧
    hdrW.name.length < ("DNT-ORIGINAL" : String).length ∧
    print_header_line hdrW = "DNT: 1\n" ∧
    c_take "DNT-ORIGINAL" hdrW.name.length ≠ "DNT-ORIGINAL" := by
  have h := c10_header_name_canonical_length hdrW "DNT-ORIGINAL" rfl
  refine ⟨rfl, by decide, ?_, h.2.1 (by decide)⟩
  rw [h.1]
  decide

/-- A successful `on_connect` touches neither stdout, the request counter,
the in-flight flag nor the remaining body size. -/
theorem on_connect_none_fields (cfg : Config) (w : World) :
    (on_connect cfg w none).1.stdout_data = w.stdout_data ∧
    (on_connect cfg w none).1.cnt_left = w.cnt_left ∧
    (on_connect cfg w none).1.inflight = w.inflight ∧
    (on_connect cfg w none).1.cur_body_size = w.cur_body_size := by
  by_cases hcur : w.cur_body_size > 0 <;> simp [on_connect, hcur]

/-- A successful `on_head` writes only to stderr. -/
theorem on_head_none_fields (w : World) (v : Nat) (st : Int) (m : String)
    (hs : List RespHeader) :
    (on_head w none v st m hs).1.stdout_data = w.stdout_data ∧
    (on_head w none v st m hs).1.cnt_left = w.cnt_left ∧
    (on_head w none v st m hs).1.inflight = w.inflight ∧
    (on_head w none v st m hs).1.cur_body_size = w.cur_body_size := by
  simp [on_head, is_real_error, ptr_eq_eos]

/-- A mid-stream `on_body` (no error) only appends the buffer to stdout. -/
theorem on_body_none_fst (cfg : Config) (w : World) (buf : String) :
    (on_body cfg w none buf).1 =
      { w with stdout_data := w.stdout_data ++ buf } := by
  simp [on_body, is_real_error, ptr_eq_eos]

/-- The end-of-stream branch of `on_body`: the buffer is flushed to stdout,
`cnt_left` is decremented, and the next request is started (in-flight,
`cur_body_size` restaged) precisely when the decremented count is nonzero. -/
theorem on_body_eos_spec (cfg : Config) (hurl : cfg.url_ok = true)
    (w : World) (buf : String) :
    (on_body cfg w (some h2o_httpclient_error_is_eos) buf).1.stdout_data =
      w.stdout_data ++ buf ∧
    (on_body cfg w (some h2o_httpclient_error_is_eos) buf).1.cnt_left =
      w.cnt_left - 1 ∧
    (w.cnt_left - 1 ≠ 0 →
      (on_body cfg w (some h2o_httpclient_error_is_eos) buf).1.inflight = true ∧
      (on_body cfg w (some h2o_httpclient_error_is_eos) buf).1.cur_body_size =
        cfg.body_size) ∧
    (w.cnt_left - 1 = 0 →
      (on_body cfg w (some h2o_httpclient_error_is_eos) buf).1.inflight =
        false) := by
  by_cases hcnt : w.cnt_left - 1 = 0
  · refine ⟨?_, ?_, fun hne => absurd hcnt hne, fun _ => ?_⟩ <;>
      simp [on_body, is_real_error, ptr_eq_eos, hcnt, start_request, hurl]
  · refine ⟨?_, ?_, fun _ => ⟨?_, ?_⟩, fun hz => absurd hz hcnt⟩ <;>
      simp [on_body, is_real_error, ptr_eq_eos, hcnt, start_request, hurl]


/-- One complete successful request appends exactly its response body to
stdout, decrements `cnt_left`, and leaves a new request in flight exactly
when the decremented count is nonzero. -/
theorem deliver_response_spec (cfg : Config) (hurl : cfg.url_ok = true)
    (w : World) (r : Response) :
    (deliver_response cfg w r).stdout_data = w.stdout_data ++ r.body ∧
    (deliver_response cfg w r).cnt_left = w.cnt_left - 1 ∧
    (w.cnt_left - 1 ≠ 0 →
      (deliver_response cfg w r).inflight = true ∧
      (deliver_response cfg w r).cur_body_size = cfg.body_size) ∧
    (w.cnt_left - 1 = 0 → (deliver_response cfg w r).inflight = false) := by
  obtain ⟨a1, a2, a3, a4⟩ := on_connect_none_fields cfg w
  obtain ⟨b1, b2, b3, b4⟩ :=
    on_head_none_fields (on_connect cfg w none).1 r.version r.status r.msg r.headers
  have hc := on_body_none_fst cfg
    (on_head (on_connect cfg w none).1 none r.version r.status r.msg r.headers).1 r.body
  obtain ⟨d1, d2, d3, d4⟩ := on_body_eos_spec cfg hurl
    (on_body cfg (on_head (on_connect cfg w none).1 none r.version r.status r.msg
      r.headers).1 none r.body).1 ""
  have hw3s : (on_body cfg (on_head (on_connect cfg w none).1 none r.version
      r.status r.msg r.headers).1 none r.body).1.stdout_data =
      w.stdout_data ++ r.body := by
    rw [hc]
    dsimp only
    rw [b1, a1]
  have hw3c : (on_body cfg (on_head (on_connect cfg w none).1 none r.version
      r.status r.msg r.headers).1 none r.body).1.cnt_left = w.cnt_left := by
    rw [hc]
    dsimp only
    rw [b2, a2]
  simp only [deliver_response]
  refine ⟨?_, ?_, ?_, ?_⟩
  · rw [d1, String.append_empty, hw3s]
  · rw [d2, hw3c]
  · intro hne
    rw [← hw3c] at hne
    exact d3 hne
  · intro hz
    rw [← hw3c] at hz
    exact d4 hz


/-- Driving the client through `n` successive responses with
`cnt_left = n` streams the bodies to stdout in order and ends with
`cnt_left = 0` and no request in flight. -/
theorem run_client_spec (cfg : Config) (hurl : cfg.url_ok = true) :
    ∀ (resps : List Response) (w : World), resps ≠ [] →
      w.cnt_left = (resps.length : Int) →
      (run_client cfg w resps).stdout_data =
        w.stdout_data ++ strConcat (resps.map Response.body) ∧
      (run_client cfg w resps).cnt_left = 0 ∧
      (run_client cfg w resps).inflight = false := by
  intro resps
  induction resps with
  | nil => exact fun w hne _ => absurd rfl hne
  | cons r rs ih =>
    intro w hne hcnt
    obtain ⟨e1, e2, e3, e4⟩ := deliver_response_spec cfg hurl w r
    cases rs with
    | nil =>
      have hz : w.cnt_left - 1 = 0 := by
        simp at hcnt
        omega
      simp only [run_client]
      refine ⟨?_, ?_, ?_⟩
      · rw [e1]
        simp [strConcat]
      · rw [e2, hz]
      · exact e4 hz
    | cons r2 rs2 =>
      have hne2 : r2 :: rs2 ≠ [] := by simp
      have hcnt2 : (deliver_response cfg w r).cnt_left =
          ((r2 :: rs2).length : Int) := by
        rw [e2]
        simp at hcnt ⊢
        omega
      obtain ⟨f1, f2, f3⟩ := ih (deliver_response cfg w r) hne2 hcnt2
      simp only [run_client] at f1 f2 f3 ⊢
      refine ⟨?_, f2, f3⟩
      rw [f1, e1]
      simp [strConcat, String.append_assoc]

/-- C8: requests are strictly sequential: the EOS branch of `on_body`
(and only it) decrements the remaining count and starts the next request
exactly when the decremented count is nonzero, so a run over `N ≥ 1`
responses streams the `N` bodies to stdout in order, ends with zero
requests left and none in flight. -/
theorem c8_sequential_requests (cfg : Config) (hurl : cfg.url_ok = true)
    (N : Nat) (hN : 1 ≤ N) (resps : List Response) (hlen : resps.length = N)
    (w : World) (hcnt : w.cnt_left = (N : Int)) :
    (run_client cfg (start_request cfg w) resps).stdout_data =
      w.stdout_data ++ strConcat (resps.map Response.body) ∧
    (run_client cfg (start_request cfg w) resps).cnt_left = 0 ∧
    (run_client cfg (start_request cfg w) resps).inflight = false ∧
    (∀ w2 : World, ∀ buf : String,
      (on_body cfg w2 (some h2o_httpclient_error_is_eos) buf).1.cnt_left =
        w2.cnt_left - 1 ∧
      (on_body cfg w2 (some h2o_httpclient_error_is_eos) buf).2 = 0 ∧
      (w2.cnt_left - 1 ≠ 0 →
        (on_body cfg w2 (some h2o_httpclient_error_is_eos) buf).1.inflight =
          true ∧
        (on_body cfg w2 (some h2o_httpclient_error_is_eos) buf).1.cur_body_size =
          cfg.body_size) ∧
      (w2.cnt_left - 1 = 0 →
        (on_body cfg w2 (some h2o_httpclient_error_is_eos) buf).1.inflight =
          false)) := by
  have hne : resps ≠ [] := by
    intro h
    subst h
    simp at hlen
    omega
  have hstart : (start_request cfg w).cnt_left = (resps.length : Int) := by
    simp [start_request, hurl, hcnt, hlen]
  have hstdout : (start_request cfg w).stdout_data = w.stdout_data := by
    simp [start_request, hurl]
  obtain ⟨g1, g2, g3⟩ := run_client_spec cfg hurl resps (start_request cfg w) hne hstart
  refine ⟨?_, g2, g3, ?_⟩
  · rw [g1, hstdout]
  · intro w2 buf
    obtain ⟨d1, d2, d3, d4⟩ := on_body_eos_spec cfg hurl w2 buf
    refine ⟨d2, ?_, d3, d4⟩
    rw [on_body_snd]
    simp [is_real_error, ptr_eq_eos]

/-- Witness for C8 at two concrete requests: both bodies appear on stdout
in order and the run ends idle. -/
theorem c8_sequential_requests_witness :
    cfgW.url_ok = true ∧ 1 ≤ 2 ∧ [respW, respW2].length = 2 ∧
    wN.cnt_left = ((2 : Nat) : Int) ∧
    ((run_client cfgW (start_request cfgW wN) [respW, respW2]).stdout_data =
        wN.stdout_data ++ strConcat ([respW, respW2].map Response.body) ∧
      (run_client cfgW (start_request cfgW wN) [respW, respW2]).cnt_left = 0 ∧
      (run_client cfgW (start_request cfgW wN) [respW, respW2]).inflight =
        false ∧
      (∀ w2 : World, ∀ buf : String,
        (on_body cfgW w2 (some h2o_httpclient_error_is_eos) buf).1.cnt_left =
          w2.cnt_left - 1 ∧
        (on_body cfgW w2 (some h2o_httpclient_error_is_eos) buf).2 = 0 ∧
        (w2.cnt_left - 1 ≠ 0 →
          (on_body cfgW w2 (some h2o_httpclient_error_is_eos) buf).1.inflight =
            true ∧
          (on_body cfgW w2
              (some h2o_httpclient_error_is_eos) buf).1.cur_body_size =
            cfgW.body_size) ∧
        (w2.cnt_left - 1 = 0 →
          (on_body cfgW w2 (some h2o_httpclient_error_is_eos) buf).1.inflight =
            false))) :=
  ⟨rfl, by decide, rfl, rfl,
    c8_sequential_requests cfgW rfl 2 (by decide) [respW, respW2] rfl wN rfl⟩

end Httpclient
